import Mathlib

/-!
Verification of the MultithreadSmartHome core against its specification.

The development shallowly embeds the relevant Python source:
  * `src/hub/rule_engine.py`   — `Rule`, `RuleEngine.add_rule`, `RuleEngine.evaluate_rules`
  * `src/devices/base.py`      — `Device.start`, `Actuator.set_state`
  * `src/.devices/actuators.py`— `LightActuator/HeaterActuator/AlarmActuator._execute_command`
  * `src/hub/smart_hub.py`     — `SmartHub.get_state`, `SmartHub._update_state`,
                                 `SmartHub._evaluate_and_execute_rules`
  * `src/web/app.py`           — `control_actuator`

Python values appearing in state snapshots and commands are modelled by `Val`
(numbers as rationals: all numeric literals in the source are exactly
representable, and only order comparisons are performed on them).  Python
dictionaries are association lists in insertion order; Python exceptions are
`Except String`.
-/

namespace SmartHome

/-- A Python value as it occurs in state snapshots, commands and configs. -/
inductive Val where
  | none
  | bool (b : Bool)
  | num (q : ℚ)
  | str (s : String)
deriving DecidableEq, Repr

/-- Python truthiness (`bool(v)`) for the values we model. -/
def Val.truthy : Val → Bool
  | .none => false
  | .bool b => b
  | .num q => decide (q ≠ 0)
  | .str s => decide (s ≠ "")

/-- A Python dict with string keys, in insertion order. -/
abbrev Dict := List (String × Val)

/-- A state snapshot: the hub's top-level dict maps logical keys to dicts. -/
abbrev Snapshot := List (String × Dict)

/-- `snapshot.get(k, \x7b\x7d)` — top-level lookup with empty-dict default. -/
def sget (s : Snapshot) (k : String) : Dict :=
  match s.find? (fun p => p.1 == k) with
  | some p => p.2
  | Option.none => []

/-- `d.get(k)` — dict lookup, `None` when the key is absent. -/
def dget (d : Dict) (k : String) : Val :=
  match d.find? (fun p => p.1 == k) with
  | some p => p.2
  | Option.none => .none

/-- `d.get(k, dflt)` — dict lookup with an explicit default. -/
def dgetD (d : Dict) (k : String) (dflt : Val) : Val :=
  match d.find? (fun p => p.1 == k) with
  | some p => p.2
  | Option.none => dflt

/-- Python `v < c` against a float constant: numbers and bools compare
numerically, `None` and strings raise `TypeError`. -/
def pyLt (v : Val) (c : ℚ) : Except String Bool :=
  match v with
  | .num q => .ok (decide (q < c))
  | .bool b => .ok (decide ((if b then (1 : ℚ) else 0) < c))
  | .none => .error "TypeError"
  | .str _ => .error "TypeError"

/-- Python `v > c` against a float constant. -/
def pyGt (v : Val) (c : ℚ) : Except String Bool :=
  match v with
  | .num q => .ok (decide (c < q))
  | .bool b => .ok (decide (c < (if b then (1 : ℚ) else 0)))
  | .none => .error "TypeError"
  | .str _ => .error "TypeError"

/-! ## Rule engine (`src/hub/rule_engine.py`) -/

/-- `Rule` from `rule_engine.py`: a condition and an action over a snapshot
(the functions may raise, modelled with `Except`), an integer priority and a
`last_triggered` timestamp (wall-clock instants modelled as `Nat`). -/
structure Rule where
  ruleId : String
  name : String
  cond : Snapshot → Except String Bool
  action : Snapshot → Except String (List Dict)
  priority : Int
  lastTriggered : Option Nat

/-- `Rule.evaluate`: run the condition; an exception is caught, logged and
treated as `False`. -/
def ruleEvaluate (r : Rule) (s : Snapshot) : Bool :=
  match r.cond s with
  | .ok b => b
  | .error _ => false

/-- `Rule.execute`: `last_triggered` is assigned `datetime.now()` first, then
the action runs; an exception from the action is caught and yields `[]`
(the timestamp assignment has already happened at that point). -/
def ruleExecute (now : Nat) (r : Rule) (s : Snapshot) : Rule × List Dict :=
  ({ r with lastTriggered := some now },
   match r.action s with
   | .ok cs => cs
   | .error _ => [])

/-- The commands a rule contributes when fired (`[]` when its action raises). -/
def ruleCmds (r : Rule) (s : Snapshot) : List Dict :=
  match r.action s with
  | .ok cs => cs
  | .error _ => []

/-- Stable insertion step used by `pysort`: `x` goes after every element of
strictly smaller priority and before the first element of `≥` priority. -/
def insR (x : Rule) : List Rule → List Rule
  | [] => [x]
  | b :: t => if b.priority < x.priority then b :: insR x t else x :: b :: t

/-- `list.sort(key=lambda r: r.priority)` — Python's sort is stable, and two
stable sorts by the same key agree extensionally, so a stable insertion sort
models it. -/
def pysort : List Rule → List Rule
  | [] => []
  | a :: l => insR a (pysort l)

/-- `RuleEngine.add_rule`: append the new rule, then stable-sort by priority. -/
def addRule (rules : List Rule) (r : Rule) : List Rule :=
  pysort (rules ++ [r])

/-- `RuleEngine.evaluate_rules`: walk the (sorted) rule list; for each rule
whose condition holds, execute it (updating `last_triggered`) and extend the
command list.  Returns the updated rules and the collected commands. -/
def evaluateRules (now : Nat) : List Rule → Snapshot → List Rule × List Dict
  | [], _ => ([], [])
  | r :: rs, s =>
    let step := if ruleEvaluate r s then ruleExecute now r s else (r, [])
    let rest := evaluateRules now rs s
    (step.1 :: rest.1, step.2 ++ rest.2)

/-! ## Default rules (`RuleEngine._initialize_rules`) -/

/-- The `rules` section of the config, with each `rules_config.get(key, default)`
resolved: `temperature_threshold_low = 18.0`, `temperature_threshold_high = 22.0`,
`light_threshold_low = 30.0`, `home_occupied = True`. -/
structure Config where
  tempLow : ℚ
  tempHigh : ℚ
  lightLow : ℚ
  homeOccupied : Bool

/-- The defaults used when the config has no `rules` section. -/
def defaultConfig : Config := ⟨18, 22, 30, true⟩

/-- `temp_low_condition`: `temp is not None and temp < threshold_low and not heater`
(short-circuit: the comparison, which may raise, only runs when `temp` is not
`None`; `not heater` never raises). -/
def tempLowCond (c : Config) (s : Snapshot) : Except String Bool :=
  let temp := dget (sget s "temperature") "value"
  let heater := dgetD (sget s "heater") "state" (.bool false)
  if temp = .none then .ok false
  else do
    let b ← pyLt temp c.tempLow
    .ok (b && !heater.truthy)

/-- `temp_low_action`. -/
def tempLowAction (_s : Snapshot) : Except String (List Dict) :=
  .ok [[("actuator", .str "heater"), ("action", .str "turn_on")]]

/-- `temp_high_condition`: `temp is not None and temp > threshold_high and heater`
(the chain's final operand is `heater` itself; its truthiness decides). -/
def tempHighCond (c : Config) (s : Snapshot) : Except String Bool :=
  let temp := dget (sget s "temperature") "value"
  let heater := dgetD (sget s "heater") "state" (.bool false)
  if temp = .none then .ok false
  else do
    let b ← pyGt temp c.tempHigh
    .ok (b && heater.truthy)

/-- `temp_high_action`. -/
def tempHighAction (_s : Snapshot) : Except String (List Dict) :=
  .ok [[("actuator", .str "heater"), ("action", .str "turn_off")]]

/-- `motion_light_condition`:
`motion and light_level is not None and light_level < threshold and not lights`. -/
def motionLightCond (c : Config) (s : Snapshot) : Except String Bool :=
  let motion := dgetD (sget s "motion") "value" (.bool false)
  let lightLevel := dget (sget s "light") "value"
  let lights := dgetD (sget s "light_actuator") "state" (.bool false)
  if !motion.truthy then .ok false
  else if lightLevel = .none then .ok false
  else do
    let b ← pyLt lightLevel c.lightLow
    .ok (b && !lights.truthy)

/-- `motion_light_action`. -/
def motionLightAction (_s : Snapshot) : Except String (List Dict) :=
  .ok [[("actuator", .str "light"), ("action", .str "turn_on")]]

/-- `no_motion_light_condition`: `not motion and lights` (never raises). -/
def noMotionLightCond (_c : Config) (s : Snapshot) : Except String Bool :=
  let motion := dgetD (sget s "motion") "value" (.bool false)
  let lights := dgetD (sget s "light_actuator") "state" (.bool false)
  .ok (!motion.truthy && lights.truthy)

/-- `no_motion_light_action`. -/
def noMotionLightAction (_s : Snapshot) : Except String (List Dict) :=
  .ok [[("actuator", .str "light"), ("action", .str "turn_off")]]

/-- `security_alarm_condition`: `motion and not home_occupied and not alarm`. -/
def securityAlarmCond (c : Config) (s : Snapshot) : Except String Bool :=
  let motion := dgetD (sget s "motion") "value" (.bool false)
  let alarm := dgetD (sget s "alarm") "state" (.bool false)
  .ok (motion.truthy && !c.homeOccupied && !alarm.truthy)

/-- `security_alarm_action`. -/
def securityAlarmAction (_s : Snapshot) : Except String (List Dict) :=
  .ok [[("actuator", .str "alarm"), ("action", .str "activate")]]

/-- The five default rules in the order `_initialize_rules` adds them. -/
def defaultRuleList (c : Config) : List Rule :=
  [ ⟨"temp_low", "Temperature Low - Turn On Heater",
      tempLowCond c, tempLowAction, 1, Option.none⟩,
    ⟨"temp_high", "Temperature High - Turn Off Heater",
      tempHighCond c, tempHighAction, 1, Option.none⟩,
    ⟨"motion_light", "Motion + Low Light - Turn On Lights",
      motionLightCond c, motionLightAction, 2, Option.none⟩,
    ⟨"no_motion_light", "No Motion - Turn Off Lights",
      noMotionLightCond c, noMotionLightAction, 3, Option.none⟩,
    ⟨"security_alarm", "Security Alert - Motion When Home Empty",
      securityAlarmCond c, securityAlarmAction, 0, Option.none⟩ ]

/-- The engine's rule list after `_initialize_rules`: each rule added in turn
through `add_rule`. -/
def defaultEngine (c : Config) : List Rule :=
  (defaultRuleList c).foldl addRule []

/-! ## Command routing (`smart_hub.py`, `web/app.py`) -/

/-- The hub's `actuator_command_queues`: per-actuator FIFO queues. -/
abbrev Queues := List (String × List Dict)

/-- The registered actuator names. -/
def qNames (qs : Queues) : List String := qs.map Prod.fst

/-- `queues[name].put(cmd)`: append to the named queue. -/
def enqueue (qs : Queues) (n : String) (cmd : Dict) : Queues :=
  qs.map (fun p => if p.1 = n then (p.1, p.2 ++ [cmd]) else p)

/-- One iteration of the routing loop in `SmartHub._evaluate_and_execute_rules`:
`actuator_name = command.get('actuator')`; the command is enqueued only when
that name is a key of `actuator_command_queues`, otherwise it is dropped. -/
def routeStep (acc : Queues) (cmd : Dict) : Queues :=
  match dget cmd "actuator" with
  | .str n => if (qNames acc).contains n then enqueue acc n cmd else acc
  | _ => acc

/-- The command-routing loop of `SmartHub._evaluate_and_execute_rules`. -/
def routeCommands (qs : Queues) (cmds : List Dict) : Queues :=
  cmds.foldl routeStep qs

/-- Outcome of the web route `control_actuator`. -/
inductive ControlResult where
  | success (msg : String)
  | notFound (msg : String)
deriving DecidableEq, Repr

/-- `control_actuator` from `web/app.py`: read `action` from the request body
(default `'toggle'`); if the actuator name is not a key of the hub's command
queues, answer 404 not-found without touching any queue; otherwise build
the command and enqueue it. -/
def controlActuator (qs : Queues) (actuatorName : String) (data : Dict) :
    ControlResult × Queues :=
  let action := dgetD data "action" (.str "toggle")
  if (qNames qs).contains actuatorName then
    (.success ("Command sent to " ++ actuatorName),
     enqueue qs actuatorName [("actuator", .str actuatorName), ("action", action)])
  else
    (.notFound ("Actuator " ++ actuatorName ++ " not found"), qs)

/-! ## Device lifecycle (`Device.start`, `src/devices/base.py`) -/

/-- The lifecycle-relevant state of a `Device`: identity, the `enabled` flag,
the `running` flag, and how many execution loops have been spawned
(`threading.Thread(...).start()` calls). -/
structure DeviceSt where
  deviceId : String
  name : String
  enabled : Bool
  running : Bool
  loopsLaunched : Nat
deriving DecidableEq, Repr

/-- `Device.start`: return immediately (warn only) when disabled or already
running; otherwise set `running := true` and spawn the loop thread. -/
def deviceStart (d : DeviceSt) : DeviceSt :=
  if !d.enabled then d
  else if d.running then d
  else { d with running := true, loopsLaunched := d.loopsLaunched + 1 }

/-! ## Actuator state changes (`Actuator.set_state`, `src/devices/base.py`) -/

/-- An actuator's observable state: the `_state` value plus the log of
`_on_state_change(old, new)` notifications fired so far. -/
structure ActState (α : Type) where
  state : α
  notifications : List (α × α)
deriving DecidableEq, Repr

/-- `Actuator.set_state`: store the new value; fire `_on_state_change` exactly
when `old_state != new_state`. -/
def setState [DecidableEq α] (s : ActState α) (v : α) : ActState α :=
  let old := s.state
  if old ≠ v then ⟨v, s.notifications ++ [(old, v)]⟩ else ⟨v, s.notifications⟩

/-! ## Actuator command interpretation (`src/.devices/actuators.py`) -/

/-- `k in command` — key-presence test on a command dict. -/
def hasKey (d : Dict) (k : String) : Bool :=
  d.any (fun p => p.1 == k)

/-- `command[k]` as an option (present keys always have a value). -/
def cmdGet (d : Dict) (k : String) : Option Val :=
  (d.find? (fun p => p.1 == k)).map Prod.snd

/-- Remove a key from a command dict (used only to state frame properties). -/
def removeKey : Dict → String → Dict
  | [], _ => []
  | p :: t, k => if p.1 = k then removeKey t k else p :: removeKey t k

/-- Python `float(v)`: numbers pass through, bools become 0/1, `None` raises.
The source never sends string-valued temperatures; string parsing is modelled
as a failure. -/
def pyFloat (v : Val) : Except String ℚ :=
  match v with
  | .num q => .ok q
  | .bool b => .ok (if b then 1 else 0)
  | .none => .error "TypeError"
  | .str _ => .error "ValueError"

/-- Shared `action`/`state` dispatch of the light and heater
`_execute_command` bodies: `if 'action' in command:` handle
`turn_on`/`turn_off`/`toggle`; `elif 'state' in command:`
`set_state(bool(command['state']))`; anything else leaves the state alone. -/
def onOffDispatch (st : Bool) (cmd : Dict) : Bool :=
  if hasKey cmd "action" then
    match cmdGet cmd "action" with
    | some a =>
      if a = .str "turn_on" then true
      else if a = .str "turn_off" then false
      else if a = .str "toggle" then !st
      else st
    | Option.none => st
  else
    match cmdGet cmd "state" with
    | some v => v.truthy
    | Option.none => st

/-- `LightActuator._execute_command`, resulting light state. -/
def lightExec (st : Bool) (cmd : Dict) : Bool :=
  onOffDispatch st cmd

/-- `HeaterActuator._execute_command`, resulting (state, target temperature):
the `action`/`state` dispatch, then an unconditional
`if 'target_temperature' in command: self.target_temperature = float(...)`
(whose `float` may raise, propagating out of the method). -/
def heaterExec (st : Bool) (tt : ℚ) (cmd : Dict) : Except String (Bool × ℚ) :=
  let st2 := onOffDispatch st cmd
  match cmdGet cmd "target_temperature" with
  | some v => do
    let q ← pyFloat v
    .ok (st2, q)
  | Option.none => .ok (st2, tt)

/-- `AlarmActuator._execute_command`, resulting alarm state
(`activate`/`deactivate`/`toggle`). -/
def alarmExec (st : Bool) (cmd : Dict) : Bool :=
  if hasKey cmd "action" then
    match cmdGet cmd "action" with
    | some a =>
      if a = .str "activate" then true
      else if a = .str "deactivate" then false
      else if a = .str "toggle" then !st
      else st
    | Option.none => st
  else
    match cmdGet cmd "state" with
    | some v => v.truthy
    | Option.none => st

/-! ## Heap model for the aggregate state (`smart_hub.py`)

`SmartHub.state` is a Python dict whose values include nested dicts.
`get_state` returns `self.state.copy()` — a new top-level dict whose entries
still reference the same nested dict objects.  To reason about that sharing we
give dicts identity: a heap maps addresses to dict objects, and dict entries
are either immediate primitives or references to other dict objects. -/

/-- A heap value: an immediate primitive or a reference to a dict object. -/
inductive HVal where
  | prim (v : Val)
  | ref (a : Nat)
deriving DecidableEq, Repr

/-- A dict object: string keys to heap values, in insertion order. -/
abbrev HDict := List (String × HVal)

/-- The heap: dict objects indexed by address. -/
abbrev Heap := List HDict

/-- Dereference an address. -/
def heapGet (h : Heap) (a : Nat) : HDict :=
  h.getD a []

/-- Overwrite the dict object at an address. -/
def heapSet (h : Heap) (a : Nat) (d : HDict) : Heap :=
  h.set a d

/-- Dict-object lookup. -/
def hdictGet (d : HDict) (k : String) : Option HVal :=
  (d.find? (fun p => p.1 == k)).map Prod.snd

/-- Python `d[k] = v` on a dict object: replace in place, or append a new key. -/
def hdictSet : HDict → String → HVal → HDict
  | [], k, v => [(k, v)]
  | (k2, v2) :: t, k, v =>
    if k2 = k then (k, v) :: t else (k2, v2) :: hdictSet t k v

/-- `SmartHub.get_state`: `self.state.copy()` — the top-level dict object at
address `t` is copied out as a value; its `ref` entries keep pointing at the
live nested dict objects. -/
def getState (h : Heap) (t : Nat) : HDict :=
  heapGet h t

/-- One sensor refresh from `SmartHub._update_state`:
`self.state['sensors'][sensor_type]['value'] = sensor.get_current_value()`,
with the two preceding `if ... not in ...:` guards allocating missing dicts.
A primitive stored under `'sensors'` would raise `TypeError` in the source;
that branch is left as a no-op and never reached by the hub. -/
def refreshSensor (h : Heap) (t : Nat) (sensorType : String) (v : Val) : Heap :=
  let top := heapGet h t
  match hdictGet top "sensors" with
  | some (.ref a) =>
    match hdictGet (heapGet h a) sensorType with
    | some (.ref b) =>
      heapSet h b (hdictSet (heapGet h b) "value" (.prim v))
    | some (.prim _) => h
    | Option.none =>
      let b := h.length
      let h2 := h ++ [[("value", HVal.prim v)]]
      heapSet h2 a (hdictSet (heapGet h2 a) sensorType (.ref b))
  | some (.prim _) => h
  | Option.none =>
    let a := h.length
    let b := h.length + 1
    let h2 := h ++ [[(sensorType, HVal.ref b)], [("value", HVal.prim v)]]
    heapSet h2 t (hdictSet (heapGet h2 t) "sensors" (.ref a))

/-- A top-level reassignment from `_update_state`, such as
`self.state['actuators'] = \x7b\x7d` or the alias lines
`self.state['temperature'] = ...`: it rebinds a key of the authoritative
top-level dict object in place. -/
def topAssign (h : Heap) (t : Nat) (k : String) (hv : HVal) : Heap :=
  heapSet h t (hdictSet (heapGet h t) k hv)

/-- Read `snap['sensors'][sensorType]['value']` through the current heap,
starting from a previously copied snapshot `snap`. -/
def snapReadSensor (h : Heap) (snap : HDict) (sensorType : String) : Option Val :=
  match hdictGet snap "sensors" with
  | some (.ref a) =>
    match hdictGet (heapGet h a) sensorType with
    | some (.ref b) =>
      match hdictGet (heapGet h b) "value" with
      | some (.prim v) => some v
      | _ => Option.none
    | _ => Option.none
  | _ => Option.none

/-! ## Lemmas about the stable sort used by `add_rule` -/

/-- Insertion of a newly appended element into an already sorted list: it goes
after every element of `≤` priority (it was appended last, so it follows its
equal-priority peers). -/
def insLEx (x : Rule) : List Rule → List Rule
  | [] => [x]
  | b :: t => if b.priority ≤ x.priority then b :: insLEx x t else x :: b :: t

theorem insR_insLEx_comm (a x : Rule) (s : List Rule) :
    insR a (insLEx x s) = insLEx x (insR a s) := by
  induction s with
  | nil =>
    by_cases h1 : x.priority < a.priority
    · simp only [insLEx, insR, if_pos h1, if_neg (by omega : ¬ a.priority ≤ x.priority)]
    · simp only [insLEx, insR, if_neg h1, if_pos (by omega : a.priority ≤ x.priority)]
  | cons b t ih =>
    by_cases hbx : b.priority ≤ x.priority <;> by_cases hba : b.priority < a.priority
    · simp only [insLEx, insR, if_pos hbx, if_pos hba, ih]
    · have hax : a.priority ≤ x.priority := by omega
      simp only [insLEx, insR, if_pos hbx, if_neg hba, if_pos hax]
    · have hxa : x.priority < a.priority := by omega
      simp only [insLEx, insR, if_neg hbx, if_pos hba, if_pos hxa]
    · by_cases hxa : x.priority < a.priority
      · simp only [insLEx, insR, if_neg hbx, if_neg hba, if_pos hxa,
          if_neg (by omega : ¬ a.priority ≤ x.priority)]
      · simp only [insLEx, insR, if_neg hbx, if_neg hba, if_neg hxa,
          if_pos (by omega : a.priority ≤ x.priority)]

theorem pysort_append_one (l : List Rule) (x : Rule) :
    pysort (l ++ [x]) = insLEx x (pysort l) := by
  induction l with
  | nil => simp [pysort, insLEx, insR]
  | cons a l ih =>
    have h1 : (a :: l) ++ [x] = a :: (l ++ [x]) := rfl
    rw [h1, pysort, ih, insR_insLEx_comm, pysort]

theorem mem_insR {y x : Rule} {s : List Rule} (h : y ∈ insR x s) :
    y = x ∨ y ∈ s := by
  induction s with
  | nil => simpa [insR] using h
  | cons b t ih =>
    by_cases hb : b.priority < x.priority
    · simp only [insR, if_pos hb, List.mem_cons] at h
      rcases h with h | h
      · exact Or.inr (by simp [h])
      · rcases ih h with h2 | h2
        · exact Or.inl h2
        · exact Or.inr (by simp [h2])
    · simp only [insR, if_neg hb, List.mem_cons] at h
      rcases h with h | h | h
      · exact Or.inl h
      · exact Or.inr (by simp [h])
      · exact Or.inr (by simp [h])

theorem pairwise_insR (x : Rule) {s : List Rule}
    (h : s.Pairwise (fun a b => a.priority ≤ b.priority)) :
    (insR x s).Pairwise (fun a b => a.priority ≤ b.priority) := by
  induction s with
  | nil => simp [insR]
  | cons b t ih =>
    rw [List.pairwise_cons] at h
    by_cases hb : b.priority < x.priority
    · rw [insR, if_pos hb, List.pairwise_cons]
      refine ⟨fun y hy => ?_, ih h.2⟩
      rcases mem_insR hy with rfl | h2
      · omega
      · exact h.1 y h2
    · rw [insR, if_neg hb, List.pairwise_cons]
      refine ⟨fun y hy => ?_, List.pairwise_cons.2 h⟩
      rcases List.mem_cons.1 hy with rfl | h2
      · omega
      · have := h.1 y h2
        omega

theorem pysort_pairwise (l : List Rule) :
    (pysort l).Pairwise (fun a b => a.priority ≤ b.priority) := by
  induction l with
  | nil => simp [pysort]
  | cons a l ih => exact pairwise_insR a ih

theorem insR_of_le {x : Rule} {t : List Rule}
    (h : ∀ y ∈ t, x.priority ≤ y.priority) : insR x t = x :: t := by
  cases t with
  | nil => rfl
  | cons b t2 =>
    have := h b (by simp)
    rw [insR, if_neg (by omega)]

theorem pysort_of_pairwise {l : List Rule}
    (h : l.Pairwise (fun a b => a.priority ≤ b.priority)) : pysort l = l := by
  induction l with
  | nil => rfl
  | cons a t ih =>
    rw [List.pairwise_cons] at h
    rw [pysort, ih h.2, insR_of_le h.1]

theorem pysort_idem (l : List Rule) : pysort (pysort l) = pysort l :=
  pysort_of_pairwise (pysort_pairwise l)

theorem foldl_addRule (l : List Rule) : l.foldl addRule [] = pysort l := by
  induction l using List.reverseRecOn with
  | nil => rfl
  | append_singleton l x ih =>
    rw [List.foldl_append, List.foldl_cons, List.foldl_nil, ih, addRule,
      pysort_append_one, pysort_idem, ← pysort_append_one]

theorem filter_insR (p : Int) (a : Rule) (s : List Rule) :
    (insR a s).filter (fun r => decide (r.priority = p)) =
      if a.priority = p then a :: s.filter (fun r => decide (r.priority = p))
      else s.filter (fun r => decide (r.priority = p)) := by
  induction s with
  | nil => by_cases h : a.priority = p <;> simp [insR, h]
  | cons b t ih =>
    by_cases hb : b.priority < a.priority
    · by_cases hap : a.priority = p
      · have hbp : ¬ b.priority = p := by omega
        simp only [insR, if_pos hb, if_pos hap, List.filter_cons, hbp,
          decide_eq_true_eq, if_neg hbp, ite_false, ih, if_pos hap,
          decide_eq_false hbp]
      · simp only [insR, if_pos hb, if_neg hap, List.filter_cons, ih,
          if_neg hap, ite_false]
    · by_cases hap : a.priority = p
      · simp only [insR, if_neg hb, if_pos hap, List.filter_cons,
          decide_eq_true_eq, if_pos hap, ite_true]
      · simp only [insR, if_neg hb, if_neg hap, List.filter_cons,
          decide_eq_true_eq, if_neg hap, ite_false]

theorem filter_pysort (p : Int) (l : List Rule) :
    (pysort l).filter (fun r => decide (r.priority = p)) =
      l.filter (fun r => decide (r.priority = p)) := by
  induction l with
  | nil => rfl
  | cons a t ih =>
    rw [pysort, filter_insR, List.filter_cons, ih]
    by_cases hap : a.priority = p <;> simp [hap]

/-! ## Lemmas about `evaluate_rules` -/

/-- The specification-side result: the concatenation, in rule-list order, of
the command lists of the rules whose conditions hold. -/
def firedCmds (s : Snapshot) (rs : List Rule) : List Dict :=
  rs.foldr (fun r acc => (if ruleEvaluate r s then ruleCmds r s else []) ++ acc) []

theorem evaluateRules_cmds (now : Nat) (rs : List Rule) (s : Snapshot) :
    (evaluateRules now rs s).2 = firedCmds s rs := by
  induction rs with
  | nil => rfl
  | cons r rs ih =>
    by_cases h : ruleEvaluate r s <;>
      simp [evaluateRules, firedCmds, ruleExecute, ruleCmds, h, ih]

theorem firedCmds_append (s : Snapshot) (rs1 rs2 : List Rule) :
    firedCmds s (rs1 ++ rs2) = firedCmds s rs1 ++ firedCmds s rs2 := by
  induction rs1 with
  | nil => rfl
  | cons r rs ih =>
    simp only [List.cons_append, firedCmds, List.foldr_cons] at ih ⊢
    rw [ih, List.append_assoc]

theorem evaluateRules_rules (now : Nat) (rs : List Rule) (s : Snapshot) :
    (evaluateRules now rs s).1 =
      rs.map (fun r =>
        if ruleEvaluate r s then { r with lastTriggered := some now } else r) := by
  induction rs with
  | nil => rfl
  | cons r rs ih =>
    by_cases h : ruleEvaluate r s <;>
      simp [evaluateRules, ruleExecute, h, ih]

theorem ruleEvaluate_setTriggered (r : Rule) (x : Option Nat) (s : Snapshot) :
    ruleEvaluate { r with lastTriggered := x } s = ruleEvaluate r s := rfl

theorem ruleCmds_setTriggered (r : Rule) (x : Option Nat) (s : Snapshot) :
    ruleCmds { r with lastTriggered := x } s = ruleCmds r s := rfl

/-! ## Claim theorems -/

/-- C1: for every rule set (given as its `add_rule` insertion sequence) and
every snapshot, the engine's rule list is the stable-by-priority reordering of
the insertion sequence — ascending priority (`Pairwise ≤`), ties kept in
insertion order (the subsequence at each fixed priority is unchanged) — and
`evaluate_rules` returns exactly the concatenation, in that order, of the
command lists of the rules whose conditions hold; a firing rule never
suppresses later rules. -/
theorem evaluate_rules_priority_concat (inserts : List Rule) (now : Nat) (s : Snapshot) :
    inserts.foldl addRule [] = pysort inserts
    ∧ (pysort inserts).Pairwise (fun a b => a.priority ≤ b.priority)
    ∧ (∀ p : Int, (pysort inserts).filter (fun r => decide (r.priority = p)) =
        inserts.filter (fun r => decide (r.priority = p)))
    ∧ (evaluateRules now (inserts.foldl addRule []) s).2 = firedCmds s (pysort inserts) :=
  ⟨foldl_addRule inserts, pysort_pairwise inserts, fun p => filter_pysort p inserts,
   by rw [foldl_addRule, evaluateRules_cmds]⟩

/-- C9: evaluating the same rule list twice on the same snapshot yields
identical command lists: the only state the first pass mutates is each fired
rule's `last_triggered`, which neither conditions nor actions consume. -/
theorem evaluate_rules_deterministic (rs : List Rule) (s : Snapshot) (n1 n2 : Nat) :
    (evaluateRules n2 (evaluateRules n1 rs s).1 s).2 = (evaluateRules n1 rs s).2 := by
  rw [evaluateRules_cmds, evaluateRules_cmds, evaluateRules_rules]
  induction rs with
  | nil => rfl
  | cons r rs ih =>
    by_cases h : ruleEvaluate r s <;>
      simp [firedCmds, h, ruleEvaluate_setTriggered, ruleCmds_setTriggered, ih] <;>
      simpa [firedCmds] using ih

/-- C2: `set_state` fires the `_on_state_change` notification exactly when the
new value differs from the previous one, and a second call with the same value
fires nothing further (idempotence: at most one notification for two identical
state-setting commands). -/
theorem set_state_notification_iff {α : Type} [DecidableEq α] (s : ActState α) (v : α) :
    (setState s v).notifications =
      s.notifications ++ (if s.state ≠ v then [(s.state, v)] else [])
    ∧ ((setState s v).notifications ≠ s.notifications ↔ s.state ≠ v)
    ∧ (setState (setState s v) v).notifications = (setState s v).notifications := by
  refine ⟨?_, ?_, ?_⟩
  · by_cases h : s.state = v <;> simp [setState, h]
  · by_cases h : s.state = v
    · have e : (setState s v).notifications = s.notifications := by simp [setState, h]
      rw [e]
      simp [h]
    · have e : (setState s v).notifications = s.notifications ++ [(s.state, v)] := by
        simp [setState, h]
      rw [e]
      exact iff_of_true (fun heq => by simpa using congrArg List.length heq) h
  · by_cases h : s.state = v <;> simp [setState, h]

/-- C7: `start()` on a disabled or already-running device is a no-op returning
the device state unchanged (no flag change, no new loop); otherwise it flips
`running` to true and launches exactly one more execution loop. -/
theorem device_start_contract (d : DeviceSt) :
    (d.enabled = false ∨ d.running = true → deviceStart d = d)
    ∧ (d.enabled = true → d.running = false →
        deviceStart d = { d with running := true, loopsLaunched := d.loopsLaunched + 1 }) := by
  constructor
  · rintro (h | h) <;> simp [deviceStart, h]
  · intro h1 h2
    simp [deviceStart, h1, h2]

/-- Witness for C7 at concrete devices: a disabled device and a running device
are untouched; a fresh enabled device starts and spawns one loop. -/
theorem device_start_contract_witness :
    deviceStart ⟨"d1", "Disabled", false, false, 0⟩ = ⟨"d1", "Disabled", false, false, 0⟩
    ∧ deviceStart ⟨"d2", "Running", true, true, 1⟩ = ⟨"d2", "Running", true, true, 1⟩
    ∧ deviceStart ⟨"d3", "Fresh", true, false, 0⟩ = ⟨"d3", "Fresh", true, true, 1⟩ :=
  ⟨(device_start_contract _).1 (Or.inl rfl),
   (device_start_contract _).1 (Or.inr rfl),
   (device_start_contract _).2 rfl rfl⟩

/-- A rule whose action raises (used to refute C4): condition true, action
errors, never triggered before. -/
def badActionRule : Rule :=
  ⟨"bad_action", "Bad Action", fun _ => .ok true, fun _ => .error "boom", 0, Option.none⟩

/-- C4 counterexample: executing a rule whose action raises still updates
`last_triggered` — `Rule.execute` assigns `datetime.now()` before invoking the
action inside the `try`, so the assignment survives the exception.  The claim
says the timestamp keeps its previous value (`None` here); it becomes `some 5`. -/
theorem last_triggered_counterexample :
    badActionRule.lastTriggered = Option.none
    ∧ badActionRule.action [] = .error "boom"
    ∧ ((ruleExecute 5 badActionRule []).1).lastTriggered = some 5 :=
  ⟨rfl, rfl, rfl⟩

/-- C4 amended: `last_triggered` is refreshed whenever the rule's action is
invoked (the assignment precedes the action call), even when the action raises;
a raising action contributes no commands. -/
theorem last_triggered_amended (now : Nat) (r : Rule) (s : Snapshot) :
    ((ruleExecute now r s).1).lastTriggered = some now
    ∧ (∀ e, r.action s = .error e → (ruleExecute now r s).2 = []) := by
  refine ⟨rfl, fun e he => ?_⟩
  simp [ruleExecute, he]

/-- Witness for the amended C4 at a concrete raising rule. -/
theorem last_triggered_amended_witness :
    ((ruleExecute 5 badActionRule []).1).lastTriggered = some 5
    ∧ (ruleExecute 5 badActionRule []).2 = [] :=
  ⟨(last_triggered_amended 5 badActionRule []).1,
   (last_triggered_amended 5 badActionRule []).2 "boom" rfl⟩

/-- C5: a rule whose condition raises is treated as not fired and a rule whose
action raises contributes no commands; in both cases `evaluate_rules` (a total
function here — the engine catches the exceptions) still evaluates every other
rule and returns exactly the other applicable rules' commands. -/
theorem rule_errors_isolated (now : Nat) (rs1 rs2 : List Rule) (r : Rule) (s : Snapshot) :
    (∀ e, r.cond s = .error e →
      (evaluateRules now (rs1 ++ r :: rs2) s).2 = (evaluateRules now (rs1 ++ rs2) s).2)
    ∧ (∀ e, r.action s = .error e →
      (evaluateRules now (rs1 ++ r :: rs2) s).2 = (evaluateRules now (rs1 ++ rs2) s).2) := by
  constructor
  · intro e he
    have hev : ruleEvaluate r s = false := by simp [ruleEvaluate, he]
    rw [evaluateRules_cmds, evaluateRules_cmds, firedCmds_append, firedCmds_append]
    simp [firedCmds, hev]
  · intro e he
    have hcm : ruleCmds r s = [] := by simp [ruleCmds, he]
    rw [evaluateRules_cmds, evaluateRules_cmds, firedCmds_append, firedCmds_append]
    simp [firedCmds, hcm]

/-- A rule whose condition raises (used in the C5 witness). -/
def raisingCondRule : Rule :=
  ⟨"bad_cond", "Bad Condition", fun _ => .error "boom",
   fun _ => .ok [[("actuator", .str "light"), ("action", .str "turn_on")]], 0, Option.none⟩

/-- A rule whose action raises (used in the C5 witness). -/
def raisingActionRule : Rule :=
  ⟨"bad_act", "Bad Act", fun _ => .ok true, fun _ => .error "boom", 0, Option.none⟩

/-- An always-firing healthy rule (used in the C5 witness). -/
def healthyRule : Rule :=
  ⟨"good", "Good", fun _ => .ok true,
   fun _ => .ok [[("actuator", .str "heater"), ("action", .str "turn_on")]], 0, Option.none⟩

/-- Witness for C5: dropping a raising-condition or raising-action rule from a
concrete two-rule engine leaves the command list unchanged. -/
theorem rule_errors_isolated_witness :
    (evaluateRules 0 ([] ++ raisingCondRule :: [healthyRule]) []).2
      = (evaluateRules 0 ([] ++ [healthyRule]) []).2
    ∧ (evaluateRules 0 ([] ++ raisingActionRule :: [healthyRule]) []).2
      = (evaluateRules 0 ([] ++ [healthyRule]) []).2 :=
  ⟨(rule_errors_isolated 0 [] [healthyRule] raisingCondRule []).1 "boom" rfl,
   (rule_errors_isolated 0 [] [healthyRule] raisingActionRule []).2 "boom" rfl⟩

/-! ## Routing lemmas and C6 -/

theorem qNames_enqueue (qs : Queues) (n : String) (cmd : Dict) :
    qNames (enqueue qs n cmd) = qNames qs := by
  induction qs with
  | nil => rfl
  | cons p t ih =>
    by_cases h : p.1 = n <;> simp [enqueue, qNames, h] <;>
      simpa [enqueue, qNames] using ih

theorem qNames_routeStep (acc : Queues) (cmd : Dict) :
    qNames (routeStep acc cmd) = qNames acc := by
  unfold routeStep
  cases dget cmd "actuator" <;> simp
  split <;> simp [qNames_enqueue]

theorem qNames_routeCommands (qs : Queues) (cmds : List Dict) :
    qNames (routeCommands qs cmds) = qNames qs := by
  induction cmds generalizing qs with
  | nil => rfl
  | cons c cs ih =>
    simp only [routeCommands, List.foldl_cons] at ih ⊢
    rw [ih, qNames_routeStep]

/-- C6: a command addressed to an actuator name absent from the queue registry
is never placed on any queue.  For the dashboard path, `control_actuator`
answers a not-found result and leaves every queue untouched; for the rule
engine path, the routing loop of `_evaluate_and_execute_rules` skips the
command (deleting it from the routed batch changes nothing). -/
theorem unknown_actuator_not_routed (qs : Queues) (name : String) (data : Dict)
    (h : (qNames qs).contains name = false) :
    (controlActuator qs name data).1 = .notFound ("Actuator " ++ name ++ " not found")
    ∧ (controlActuator qs name data).2 = qs
    ∧ (∀ cmds1 cmds2 cmd, dget cmd "actuator" = .str name →
        routeCommands qs (cmds1 ++ cmd :: cmds2) = routeCommands qs (cmds1 ++ cmds2)) := by
  have h2 : ¬ name ∈ qNames qs := by simpa using h
  refine ⟨?_, ?_, ?_⟩
  · simp [controlActuator, h2]
  · simp [controlActuator, h2]
  · intro cmds1 cmds2 cmd hc
    rw [routeCommands, routeCommands, List.foldl_append, List.foldl_append,
      List.foldl_cons]
    have hmid : qNames (List.foldl routeStep qs cmds1) = qNames qs :=
      qNames_routeCommands qs cmds1
    have hskip : routeStep (List.foldl routeStep qs cmds1) cmd
        = List.foldl routeStep qs cmds1 := by
      simp only [routeStep, hc, hmid]
      rw [if_neg]
      simp [h2]
    rw [hskip]

/-- Witness for C6: with queues for `light` and `heater` only, a command for
`alarm` gets a not-found answer, leaves the queues untouched, and is skipped by
the rule-engine routing loop. -/
theorem unknown_actuator_not_routed_witness :
    (controlActuator [("light", []), ("heater", [])] "alarm" []).1
      = .notFound "Actuator alarm not found"
    ∧ (controlActuator [("light", []), ("heater", [])] "alarm" []).2
      = [("light", []), ("heater", [])]
    ∧ routeCommands [("light", []), ("heater", [])]
        [[("actuator", Val.str "alarm"), ("action", Val.str "activate")]]
      = routeCommands [("light", []), ("heater", [])] [] :=
  ⟨(unknown_actuator_not_routed [("light", []), ("heater", [])] "alarm" [] (by decide)).1,
   (unknown_actuator_not_routed [("light", []), ("heater", [])] "alarm" [] (by decide)).2.1,
   (unknown_actuator_not_routed [("light", []), ("heater", [])] "alarm" [] (by decide)).2.2
     [] [] [("actuator", Val.str "alarm"), ("action", Val.str "activate")] (by decide)⟩

/-! ## Command-dict lemmas and C10 -/

theorem cmdGet_removeKey (cmd : Dict) (k k2 : String) (h : k ≠ k2) :
    cmdGet (removeKey cmd k2) k = cmdGet cmd k := by
  induction cmd with
  | nil => rfl
  | cons p t ih =>
    by_cases h1 : p.1 = k2
    · have h3 : (p.1 == k) = false := by
        apply beq_eq_false_iff_ne.2
        rw [h1]
        exact Ne.symm h
      rw [removeKey, if_pos h1, ih]
      simp only [cmdGet, List.find?_cons, h3]
    · rw [removeKey, if_neg h1]
      simp only [cmdGet, List.find?_cons]
      cases h4 : (p.1 == k) with
      | true => rfl
      | false => exact ih

theorem hasKey_removeKey (cmd : Dict) (k k2 : String) (h : k ≠ k2) :
    hasKey (removeKey cmd k2) k = hasKey cmd k := by
  induction cmd with
  | nil => rfl
  | cons p t ih =>
    by_cases h1 : p.1 = k2
    · have h3 : (p.1 == k) = false := by
        apply beq_eq_false_iff_ne.2
        rw [h1]
        exact Ne.symm h
      rw [removeKey, if_pos h1, ih]
      simp only [hasKey, List.any_cons, h3, Bool.false_or]
    · rw [removeKey, if_neg h1]
      simp only [hasKey, List.any_cons]
      exact congrArg (fun b => p.1 == k || b) ih

theorem hasKey_false_cmdGet (cmd : Dict) (k : String) (h : hasKey cmd k = false) :
    cmdGet cmd k = Option.none := by
  induction cmd with
  | nil => rfl
  | cons p t ih =>
    rw [hasKey, List.any_cons, Bool.or_eq_false_iff] at h
    rw [cmdGet, List.find?_cons, h.1]
    exact ih h.2

/-- C10: when a command dict carries both an `action` and a `state` key, every
actuator's `_execute_command` applies only the `action` and ignores `state`
entirely (removing the `state` key changes nothing); the `state` key drives the
new state only when no `action` key is present. -/
theorem action_overrides_state (cmd : Dict) (st : Bool) (tt : ℚ)
    (h1 : hasKey cmd "action" = true) (_h2 : hasKey cmd "state" = true) :
    lightExec st (removeKey cmd "state") = lightExec st cmd
    ∧ heaterExec st tt (removeKey cmd "state") = heaterExec st tt cmd
    ∧ alarmExec st (removeKey cmd "state") = alarmExec st cmd
    ∧ (∀ cmd2 v, hasKey cmd2 "action" = false → cmdGet cmd2 "state" = some v →
        lightExec st cmd2 = v.truthy ∧ alarmExec st cmd2 = v.truthy
        ∧ (hasKey cmd2 "target_temperature" = false →
            heaterExec st tt cmd2 = .ok (v.truthy, tt))) := by
  have ha := cmdGet_removeKey cmd "action" "state" (by decide)
  have htk := hasKey_removeKey cmd "action" "state" (by decide)
  have htt := cmdGet_removeKey cmd "target_temperature" "state" (by decide)
  refine ⟨?_, ?_, ?_, ?_⟩
  · simp [lightExec, onOffDispatch, ha, htk, h1]
  · simp [heaterExec, onOffDispatch, ha, htk, htt, h1]
  · simp [alarmExec, ha, htk, h1]
  · intro cmd2 v hna hst
    refine ⟨?_, ?_, fun hnt => ?_⟩
    · simp [lightExec, onOffDispatch, hna, hst]
    · simp [alarmExec, hna, hst]
    · simp [heaterExec, onOffDispatch, hna, hst, hasKey_false_cmdGet cmd2 "target_temperature" hnt]

/-- Witness for C10 at concrete commands: with both keys present the `state`
key is inert for all three actuators, and with only a `state` key the state
value drives the result. -/
theorem action_overrides_state_witness :
    lightExec false (removeKey [("action", Val.str "turn_on"), ("state", Val.bool false)] "state")
      = lightExec false [("action", Val.str "turn_on"), ("state", Val.bool false)]
    ∧ heaterExec false 20 (removeKey [("action", Val.str "turn_on"), ("state", Val.bool false)] "state")
      = heaterExec false 20 [("action", Val.str "turn_on"), ("state", Val.bool false)]
    ∧ alarmExec false (removeKey [("action", Val.str "turn_on"), ("state", Val.bool false)] "state")
      = alarmExec false [("action", Val.str "turn_on"), ("state", Val.bool false)]
    ∧ lightExec false [("state", Val.bool true)] = (Val.bool true).truthy :=
  ⟨(action_overrides_state [("action", Val.str "turn_on"), ("state", Val.bool false)]
      false 20 rfl rfl).1,
   (action_overrides_state [("action", Val.str "turn_on"), ("state", Val.bool false)]
      false 20 rfl rfl).2.1,
   (action_overrides_state [("action", Val.str "turn_on"), ("state", Val.bool false)]
      false 20 rfl rfl).2.2.1,
   ((action_overrides_state [("action", Val.str "turn_on"), ("state", Val.bool false)]
      false 20 rfl rfl).2.2.2 [("state", Val.bool true)] (Val.bool true) rfl rfl).1⟩

/-! ## Default-rule scenario (C8) -/

/-- A snapshot meeting every constraint C8 states — temperature 15.0, heater
off, motion/light/alarm absent — but with the light actuator on. -/
def c8Snap : Snapshot :=
  [("temperature", [("value", Val.num 15)]),
   ("heater", [("state", Val.bool false)]),
   ("light_actuator", [("state", Val.bool true)])]

/-- C8 counterexample: the claim leaves the `light_actuator` entry
unconstrained.  On `c8Snap` all of the claim's constraints hold (temperature
15.0, heater off, motion/light/alarm entries absent hence falsy), yet the
default rules emit two commands — `no_motion_light` also fires (no motion and
lights on), so the result is not exactly the single heater command. -/
theorem default_rules_scenario_counterexample :
    dget (sget c8Snap "temperature") "value" = Val.num 15
    ∧ (dgetD (sget c8Snap "heater") "state" (Val.bool false)).truthy = false
    ∧ (dgetD (sget c8Snap "motion") "value" (Val.bool false)).truthy = false
    ∧ (dget (sget c8Snap "light") "value").truthy = false
    ∧ (dgetD (sget c8Snap "alarm") "state" (Val.bool false)).truthy = false
    ∧ (evaluateRules 0 (defaultEngine defaultConfig) c8Snap).2
        ≠ [[("actuator", Val.str "heater"), ("action", Val.str "turn_on")]] := by
  refine ⟨rfl, rfl, rfl, rfl, rfl, ?_⟩
  decide

/-- C8 amended: with the additional constraint that the light actuator is off
(or absent) — forced by the counterexample — the default rules on any snapshot
with temperature 15.0, heater off and motion/light/alarm absent-or-falsy emit
exactly the single heater turn-on command. -/
theorem default_rules_scenario_amended (now : Nat) (s : Snapshot)
    (h1 : dget (sget s "temperature") "value" = Val.num 15)
    (h2 : (dgetD (sget s "heater") "state" (Val.bool false)).truthy = false)
    (h3 : (dgetD (sget s "motion") "value" (Val.bool false)).truthy = false)
    (_h4 : (dget (sget s "light") "value").truthy = false)
    (_h5 : (dgetD (sget s "alarm") "state" (Val.bool false)).truthy = false)
    (h6 : (dgetD (sget s "light_actuator") "state" (Val.bool false)).truthy = false) :
    (evaluateRules now (defaultEngine defaultConfig) s).2
      = [[("actuator", Val.str "heater"), ("action", Val.str "turn_on")]] := by
  have hsec : securityAlarmCond defaultConfig s = .ok false := by
    simp [securityAlarmCond, defaultConfig]
  have hlow : tempLowCond defaultConfig s = .ok true := by
    simp [tempLowCond, h1, h2, pyLt, defaultConfig, bind, Except.bind]
    norm_num
  have hhigh : tempHighCond defaultConfig s = .ok false := by
    simp [tempHighCond, h1, pyGt, defaultConfig, bind, Except.bind]
    norm_num
  have hml : motionLightCond defaultConfig s = .ok false := by
    simp [motionLightCond, h3]
  have hnml : noMotionLightCond defaultConfig s = .ok false := by
    simp [noMotionLightCond, h6]
  simp [defaultEngine, defaultRuleList, addRule, pysort, insR, evaluateRules,
    ruleEvaluate, ruleExecute, hsec, hlow, hhigh, hml, hnml, tempLowAction]

/-- A minimal snapshot for the C8 witness: temperature 15.0, everything else
absent. -/
def c8WitnessSnap : Snapshot := [("temperature", [("value", Val.num 15)])]

/-- Witness for the amended C8: on a concrete snapshot meeting all the amended
constraints the engine emits exactly the heater turn-on command. -/
theorem default_rules_scenario_witness :
    (evaluateRules 0 (defaultEngine defaultConfig) c8WitnessSnap).2
      = [[("actuator", Val.str "heater"), ("action", Val.str "turn_on")]] :=
  default_rules_scenario_amended 0 c8WitnessSnap rfl rfl rfl rfl rfl rfl

/-! ## Heap lemmas and C3 -/

theorem heapGet_heapSet_ne (h : Heap) {a b : Nat} (hne : b ≠ a) (d : HDict) :
    heapGet (heapSet h b d) a = heapGet h a := by
  simp [heapGet, heapSet, List.getD_eq_getElem?_getD, List.getElem?_set_ne hne]

theorem heapGet_heapSet_self (h : Heap) {b : Nat} (hb : b < h.length) (d : HDict) :
    heapGet (heapSet h b d) b = d := by
  simp [heapGet, heapSet, List.getD_eq_getElem?_getD, List.getElem?_set_self hb]

theorem hdictGet_hdictSet_self (d : HDict) (k : String) (v : HVal) :
    hdictGet (hdictSet d k v) k = some v := by
  induction d with
  | nil => simp [hdictSet, hdictGet]
  | cons p t ih =>
    by_cases h1 : p.1 = k
    · simp [hdictSet, h1, hdictGet]
    · simp [hdictSet, h1, hdictGet, List.find?_cons] at ih ⊢
      simpa [hdictGet] using ih

/-- The heap on which C3 fails: the authoritative top-level state dict lives at
address 0 and holds `sensors ↦ ref 1`; the sensors dict at address 1 holds
`temperature ↦ ref 2`; the temperature dict at address 2 holds `value ↦ 1`. -/
def c3Heap : Heap :=
  [[("sensors", HVal.ref 1)],
   [("temperature", HVal.ref 2)],
   [("value", HVal.prim (Val.num 1))]]

/-- C3 counterexample: `get_state()` is `self.state.copy()`, a shallow copy.
After the caller takes a snapshot, one controller sensor refresh
(`self.state['sensors'][sensor_type]['value'] = ...`) mutates the nested dict
the snapshot still references: reading the temperature through the previously
returned snapshot now gives 2.0 instead of the 1.0 it held at copy time, so
the snapshot's nested contents are not unchanged. -/
theorem get_state_shallow_copy_counterexample :
    snapReadSensor c3Heap (getState c3Heap 0) "temperature" = some (Val.num 1)
    ∧ snapReadSensor (refreshSensor c3Heap 0 "temperature" (Val.num 2))
        (getState c3Heap 0) "temperature" = some (Val.num 2)
    ∧ some (Val.num 2) ≠ some (Val.num 1) := by
  refine ⟨rfl, rfl, ?_⟩
  decide

/-- C3 amended: `get_state` returns a shallow copy.  The snapshot's top-level
bindings are fixed at copy time — a later top-level reassignment of the
authoritative map (e.g. rebuilding `state['actuators']`) does not change what
the snapshot's entries read — but nested per-sensor dicts are shared by
reference, so a later in-place sensor refresh IS observed through the
previously returned snapshot (the refreshed value appears there). -/
theorem get_state_shallow_copy_amended (h : Heap) (t a b : Nat) (st : String) (v : Val)
    (h1 : hdictGet (heapGet h t) "sensors" = some (.ref a))
    (h2 : hdictGet (heapGet h a) st = some (.ref b))
    (hab : a ≠ b) (hb : b < h.length) :
    snapReadSensor (refreshSensor h t st v) (getState h t) st = some v
    ∧ (∀ k hv, t ≠ a → t ≠ b →
        snapReadSensor (topAssign h t k hv) (getState h t) st
          = snapReadSensor h (getState h t) st) := by
  constructor
  · have e1 : refreshSensor h t st v
        = heapSet h b (hdictSet (heapGet h b) "value" (.prim v)) := by
      simp only [refreshSensor, h1, h2]
    have e2 : heapGet (heapSet h b (hdictSet (heapGet h b) "value" (.prim v))) a
        = heapGet h a := heapGet_heapSet_ne h (Ne.symm hab) _
    rw [getState, e1]
    simp only [snapReadSensor, h1, e2, h2, heapGet_heapSet_self h hb,
      hdictGet_hdictSet_self]
  · intro k hv hta htb
    have e3 : heapGet (topAssign h t k hv) a = heapGet h a := by
      rw [topAssign]
      exact heapGet_heapSet_ne h hta _
    have e4 : heapGet (topAssign h t k hv) b = heapGet h b := by
      rw [topAssign]
      exact heapGet_heapSet_ne h htb _
    simp only [snapReadSensor, getState, h1, e3, e4, h2]

/-- Witness for the amended C3 on the concrete heap: the sensor refresh shows
through the old snapshot, and a top-level reassignment does not. -/
theorem get_state_shallow_copy_witness :
    snapReadSensor (refreshSensor c3Heap 0 "temperature" (Val.num 2))
      (getState c3Heap 0) "temperature" = some (Val.num 2)
    ∧ snapReadSensor (topAssign c3Heap 0 "actuators" (HVal.prim Val.none))
        (getState c3Heap 0) "temperature"
      = snapReadSensor c3Heap (getState c3Heap 0) "temperature" :=
  ⟨(get_state_shallow_copy_amended c3Heap 0 1 2 "temperature" (Val.num 2)
      rfl rfl (by decide) (by decide)).1,
   (get_state_shallow_copy_amended c3Heap 0 1 2 "temperature" (Val.num 2)
      rfl rfl (by decide) (by decide)).2 "actuators" (HVal.prim Val.none)
      (by decide) (by decide)⟩

end SmartHome
